import Mathlib

/-!
Shallow embedding of the cracker-shop storefront (src/app.py) and proofs
about its checkout flow.

Conventions of the embedding:
* Python floats (product prices, totals) are modelled as rationals.
* The session cart (a Python dict from product-id string to quantity) is
  an insertion-ordered association list with unique keys.
* The order database is a list of `Order` records; sqlite AUTOINCREMENT
  assigns id `db.length + 1` to a new row, and the JSON serialisation of
  the items snapshot is modelled as storing the snapshot value itself.
* Fallible steps (the sqlite insert, the Stripe session call) are driven
  by oracle fields of `Env`; an uncaught Python exception is the
  `Resp.exn` outcome.
-/

deriving instance DecidableEq for Except

namespace CrackerShop

/-! Part: String literals of the source -/

def msgValueError : String := "ValueError"

def msgNotFound : String := "Product not found"

def msgAddedPre : String := "Added "

def msgAddedSuf : String := " to cart"

def msgEmptyCart : String := "Your cart is empty"

def msgValidation : String := "Please enter name and phone"

def msgDbPre : String := "Database error: "

def msgPayPre : String := "Payment processing error: "

def strStripe : String := "stripe"

def strInr : String := "inr"

def strCard : String := "card"

def strPayment : String := "payment"

def strQtyDash : String := "qty-"

def urlIndex : String := "/"

def urlCheckout : String := "/checkout"

def urlSuccessQ : String := "/success?order_id="

/-! Part: Python primitives -/

/-- Value of a list of decimal digit characters. -/
def digitsVal (l : List Char) : Nat :=
  l.foldl (fun a c => a * 10 + (c.toNat - 48)) 0

/-- Both-ends whitespace strip, as Python `int` applies to its string
argument. -/
def stripWs (l : List Char) : List Char :=
  ((l.dropWhile Char.isWhitespace).reverse.dropWhile Char.isWhitespace).reverse

/-- Model of Python `int(s)` on a string: strip whitespace, optional
sign, then decimal digits; `none` models the `ValueError` raise. -/
def pyInt? (s : String) : Option Int :=
  match stripWs s.data with
  | [] => none
  | c :: rest =>
    if c = '-' then
      if !rest.isEmpty && rest.all Char.isDigit then
        some (-(digitsVal rest : Int))
      else none
    else if c = '+' then
      if !rest.isEmpty && rest.all Char.isDigit then
        some (digitsVal rest : Int)
      else none
    else if (c :: rest).all Char.isDigit then
      some (digitsVal (c :: rest) : Int)
    else none

/-- Model of Python `int(x)` on a rational-valued number: truncation
toward zero (`Int.div` truncates toward zero). -/
def pyTrunc (q : ℚ) : Int := Int.tdiv q.num (q.den : Int)

/-! Part: Data model -/

/-- A catalog product loaded from `products.json`. -/
structure Product where
  id : Int
  name : String
  price : ℚ
deriving DecidableEq

abbrev Catalog := List Product

/-- The session cart: product-id string to quantity, insertion order. -/
abbrev Cart := List (String × Int)

/-- Python dict read `cart.get(k, 0)`. -/
def dictGetD (cart : Cart) (k : String) : Int :=
  match cart.find? (fun e => e.1 == k) with
  | none => 0
  | some e => e.2

/-- Python dict write `cart[k] = v`: replace in place, append if new. -/
def dictSet : Cart → String → Int → Cart
  | [], k, v => [(k, v)]
  | e :: t, k, v => if e.1 = k then (k, v) :: t else e :: dictSet t k v

/-- A checkout line item `{"id": ..., "name": ..., "price": ..., "qty": ...}`. -/
structure LineItem where
  id : Int
  name : String
  price : ℚ
  qty : Int
deriving DecidableEq

/-- An item of the `/cart` view: a product copy extended with `qty` and
`subtotal`. -/
structure CartItem where
  id : Int
  name : String
  price : ℚ
  qty : Int
  subtotal : ℚ
deriving DecidableEq

/-- A persisted order row. -/
structure Order where
  id : Nat
  customer_name : Option String
  email : Option String
  phone : Option String
  address : Option String
  delivery_type : Option String
  items : List LineItem
  total : ℚ
  paid : Bool
deriving DecidableEq

/-! Part: get_product -/

/-- Model of `get_product(pid)` for a string pid (cart keys).  The source
evaluates `int(pid)` inside the loop over `PRODUCTS`, so an empty catalog
returns `None` without ever converting; a non-empty catalog raises
`ValueError` on the first iteration when `pid` is not an integer
literal. -/
def get_product (catalog : Catalog) (pid : String) : Except String (Option Product) :=
  match catalog with
  | [] => .ok none
  | _ :: _ =>
    match pyInt? pid with
    | none => .error msgValueError
    | some n => .ok (catalog.find? (fun p => p.id == n))

/-! Part: HTTP responses -/

/-- Observable outcome of a request: a redirect (with the flash message
set on it), or an uncaught exception. -/
inductive Resp where
  | redirectIndex (flashMsg : String)
  | redirectCheckout (flashMsg : String)
  | redirectStripe (url : String)
  | redirectSuccess (orderId : Nat)
  | exn (msg : String)
deriving DecidableEq

def respTarget : Resp → String
  | .redirectIndex _ => urlIndex
  | .redirectCheckout _ => urlCheckout
  | .redirectStripe u => u
  | .redirectSuccess oid => urlSuccessQ ++ toString oid
  | .exn _ => ""

def respFlash : Resp → String
  | .redirectIndex m => m
  | .redirectCheckout m => m
  | .redirectStripe _ => ""
  | .redirectSuccess _ => ""
  | .exn m => m

/-- Whether the list `p` occurs as a prefix of `s`. -/
def startsSub : List Char → List Char → Bool
  | [], _ => true
  | _ :: _, [] => false
  | a :: p, b :: s => a = b && startsSub p s

/-- Whether the list `p` occurs contiguously inside `s`. -/
def hasSub : List Char → List Char → Bool
  | p, [] => p.isEmpty
  | p, c :: t => startsSub p (c :: t) || hasSub p t

/-- Whether the pattern string occurs inside `s`. -/
def strHasSub (s pat : String) : Bool := hasSub pat.data s.data

/-- Whether a response carries the given order id anywhere (redirect
target or flash message). -/
def respMentionsOrder (r : Resp) (oid : Nat) : Bool :=
  strHasSub (respTarget r) (toString oid) || strHasSub (respFlash r) (toString oid)

/-! Part: Cart routes -/

/-- Model of the `/add-to-cart/<int:pid>` route.  The route converter
supplies an integer pid, so `int(pid)` inside `get_product` is the
identity and the lookup is a plain scan of the catalog. -/
def add_to_cart (catalog : Catalog) (cart : Cart) (pid : Int) : Cart × Resp :=
  match catalog.find? (fun p => p.id == pid) with
  | none => (cart, .redirectIndex msgNotFound)
  | some p =>
      (dictSet cart (toString pid) (dictGetD cart (toString pid) + 1),
       .redirectIndex (msgAddedPre ++ p.name ++ msgAddedSuf))

/-- Model of `key.split("-", 1)[1]`: the characters after the first dash. -/
def afterFirstDash : List Char → List Char
  | [] => []
  | c :: t => if c = '-' then t else afterFirstDash t

def pidOfKey (k : String) : String := String.mk (afterFirstDash k.data)

/-- Whether a form key `key.startswith("qty-")`. -/
def startsQty (k : String) : Bool := startsSub strQtyDash.data k.data

/-- The loop of the `/update-cart` route, building a fresh dict. -/
def updateCartLoop (cart : Cart) : List (String × String) → Cart
  | [] => cart
  | (k, v) :: rest =>
    if startsQty k then
      let qty := (pyInt? v).getD 0
      if qty > 0 then updateCartLoop (dictSet cart (pidOfKey k) qty) rest
      else updateCartLoop cart rest
    else updateCartLoop cart rest

/-- Model of the `/update-cart` route: replaces the whole session cart
with a dict built from the `qty-*` form fields. -/
def update_cart (form : List (String × String)) : Cart :=
  updateCartLoop [] form

/-- Derivation loop of the `/cart` view: join each entry against the
catalog, silently skip unresolved products, record a `subtotal` per item
and accumulate the total.  A `ValueError` from `get_product` aborts the
request. -/
def cartView (catalog : Catalog) : Cart → Except String (List CartItem × ℚ)
  | [] => .ok ([], 0)
  | (pid, qty) :: rest =>
    match get_product catalog pid with
    | .error e => .error e
    | .ok none => cartView catalog rest
    | .ok (some p) =>
      match cartView catalog rest with
      | .error e => .error e
      | .ok (items, total) =>
        .ok (CartItem.mk p.id p.name p.price qty (p.price * (qty : ℚ)) :: items,
             p.price * (qty : ℚ) + total)

/-! Part: Checkout -/

/-- The POST form fields of `/checkout`; `request.form.get` yields `None`
for an absent field. -/
structure Form where
  name : Option String
  email : Option String
  phone : Option String
  address : Option String
  delivery_type : Option String
  pay_method : Option String
deriving DecidableEq

/-- Python truthiness test `not x` on an optional string. -/
def pyFalsy : Option String → Bool
  | none => true
  | some s => s = ""

/-- Derivation loop of `/checkout` (lines 138-146): join cart entries
against the catalog, skip unresolved products, accumulate the total. -/
def checkoutDerive (catalog : Catalog) : Cart → Except String (List LineItem × ℚ)
  | [] => .ok ([], 0)
  | (pid, qty) :: rest =>
    match get_product catalog pid with
    | .error e => .error e
    | .ok none => checkoutDerive catalog rest
    | .ok (some p) =>
      match checkoutDerive catalog rest with
      | .error e => .error e
      | .ok (items, total) =>
        .ok (LineItem.mk p.id p.name p.price qty :: items,
             p.price * (qty : ℚ) + total)

/-- One Stripe `line_items` element. -/
structure StripeLine where
  currency : String
  productName : String
  unit_amount : Int
  quantity : Int
deriving DecidableEq

/-- The hosted-payment-session request passed to
`stripe.checkout.Session.create`. -/
structure StripeRequest where
  payment_method_types : List String
  line_items : List StripeLine
  mode : String
  success_url : String
  cancel_url : String
deriving DecidableEq

/-- One provider line per checkout item: fixed currency, product name,
`int(price * 100)` minor units, quantity. -/
def mkStripeLine (it : LineItem) : StripeLine :=
  StripeLine.mk strInr it.name (pyTrunc (it.price * 100)) it.qty

def mkStripeRequest (items : List LineItem) (oid : Nat) : StripeRequest :=
  StripeRequest.mk [strCard] (items.map mkStripeLine) strPayment
    (urlSuccessQ ++ toString oid) urlCheckout

/-- Environment of one checkout request: the loaded catalog, the Stripe
configuration, and oracles for the outcome of the sqlite insert, the
Stripe call and the confirmation email (whose result the source
discards). -/
structure Env where
  catalog : Catalog
  stripeSecret : String
  dbFail : Option String
  stripeResponse : Except String String
  emailOk : Bool

/-- Observable result of a checkout POST: the response, the session cart
afterwards, the database afterwards, and the Stripe request sent (if
any). -/
structure CheckoutOut where
  resp : Resp
  cart : Cart
  db : List Order
  stripeReq : Option StripeRequest
deriving DecidableEq

/-- Model of the POST branch of the `/checkout` route. -/
def checkoutPost (env : Env) (form : Form) (cart : Cart) (db : List Order) : CheckoutOut :=
  if cart = [] then CheckoutOut.mk (.redirectIndex msgEmptyCart) cart db none
  else
    match checkoutDerive env.catalog cart with
    | .error e => CheckoutOut.mk (.exn e) cart db none
    | .ok (items, total) =>
      if pyFalsy form.name || pyFalsy form.phone then
        CheckoutOut.mk (.redirectCheckout msgValidation) cart db none
      else
        match env.dbFail with
        | some e => CheckoutOut.mk (.redirectCheckout (msgDbPre ++ e)) cart db none
        | none =>
          let oid := db.length + 1
          let order := Order.mk oid form.name form.email form.phone form.address
            form.delivery_type items total false
          if form.pay_method = some strStripe ∧ env.stripeSecret ≠ "" then
            let req := mkStripeRequest items oid
            match env.stripeResponse with
            | .ok url => CheckoutOut.mk (.redirectStripe url) [] (db ++ [order]) (some req)
            | .error e =>
              CheckoutOut.mk (.redirectCheckout (msgPayPre ++ e)) [] (db ++ [order]) (some req)
          else CheckoutOut.mk (.redirectSuccess oid) [] (db ++ [order]) none

/-! Part: Admin view -/

/-- Model of the `/admin` listing: all orders, newest first
(`ORDER BY id DESC` over increasing AUTOINCREMENT ids). -/
def listAll (db : List Order) : List Order := db.reverse

/-- Re-reading the order with id `n` from the admin listing. -/
def readOrder (db : List Order) (n : Nat) : Option Order :=
  (listAll db).find? (fun o => o.id == n)

/-- Model of a later catalog edit: update one product's price in place. -/
def setPrice (catalog : Catalog) (pid : Int) (newp : ℚ) : Catalog :=
  catalog.map (fun p => if p.id = pid then Product.mk p.id p.name newp else p)

/-! Part: specification-side definitions (for refinement comparison) -/

/-- Specification reading of `toLineItems()`: join each cart entry
against the catalog by parsed product id and drop entries that do not
resolve, each kept item carrying `subtotal = price * qty`. -/
def toLineItemsSpec (catalog : Catalog) (cart : Cart) : List CartItem :=
  cart.filterMap (fun e =>
    (pyInt? e.1).bind (fun n =>
      (catalog.find? (fun p => p.id == n)).map
        (fun p => CartItem.mk p.id p.name p.price e.2 (p.price * (e.2 : ℚ)))))

/-- Specification reading of `setQuantities`: keep exactly the `qty-`
form fields whose value parses to a positive integer, keyed by the part
of the field name after the `qty-` prefix. -/
def setQuantitiesSpec (form : List (String × String)) : Cart :=
  form.filterMap (fun e =>
    if startsQty e.1 then
      if (pyInt? e.2).getD 0 > 0 then
        some (String.mk (e.1.data.drop 4), (pyInt? e.2).getD 0)
      else none
    else none)

/-! Part: sample data for concrete runs -/

def sEmpty : String := ""

def sA : String := "A"

def sPhoneNum : String := "123"

def sBoom : String := "boom"

def sDisk : String := "disk I/O error"

def sOne : String := "1"

def sTwo : String := "2"

def sNine3 : String := "999"

def sAbc : String := "abc"

def sQtyAbc : String := "qty-abc"

def sQty5 : String := "qty-5"

def sQty7 : String := "qty-7"

def sQty9 : String := "qty-9"

def sOther : String := "other"

def sX : String := "x"

def sNeg3 : String := "-3"

def sFive : String := "5"

def sUrl : String := "https://pay.example/session"

def sSecret : String := "sk"

def nmRocket : String := "Rocket"

def nmSparkler : String := "Sparkler"

def nmChakri : String := "Chakri"

def prodR : Product := Product.mk 1 nmRocket 10

def prodS : Product := Product.mk 2 nmSparkler 25

/-- A product priced at 99.5, so its minor-unit amount is 9950. -/
def prodT : Product := Product.mk 3 nmChakri (199 / 2)

def catalog2 : Catalog := [prodR, prodS]

def catalog3 : Catalog := [prodR, prodS, prodT]

def cartRS : Cart := [(sOne, 2), (sTwo, 1)]

def formOK : Form := Form.mk (some sA) none (some sPhoneNum) none none none

/-- A quantity-update form mixing a kept entry, a zero-or-negative
entry, a non-numeric entry and a non-`qty-` field. -/
def formW8 : List (String × String) :=
  [(sQty5, sTwo), (sQty7, sNeg3), (sQty9, sX), (sOther, sFive)]

def formStripe : Form := Form.mk (some sA) none (some sPhoneNum) none none (some strStripe)

def formNoPhone : Form := Form.mk (some sA) none (some sEmpty) none none none

def formNoName : Form := Form.mk (some sEmpty) none (some sPhoneNum) none none none

def envPlain : Env := Env.mk catalog2 sEmpty none (.ok sUrl) true

def envDbFail : Env := Env.mk catalog2 sEmpty (some sDisk) (.ok sUrl) true

def envStripeFail : Env := Env.mk catalog2 sSecret none (.error sBoom) false

def envStripeOk : Env := Env.mk catalog3 sSecret none (.ok sUrl) true

/-- The line items derived from `cartRS` against `catalog2`. -/
def itemsRS : List LineItem :=
  [LineItem.mk 1 nmRocket 10 2, LineItem.mk 2 nmSparkler 25 1]

def sThree : String := "3"

def cartRT : Cart := [(sOne, 2), (sThree, 1)]

/-- The line items derived from `cartRT` against `catalog3`. -/
def itemsRT : List LineItem :=
  [LineItem.mk 1 nmRocket 10 2, LineItem.mk 3 nmChakri (199 / 2) 1]

/-! Part: helper lemmas -/

lemma get_product_of_parse (catalog : Catalog) (pid : String) (n : Int)
    (h : pyInt? pid = some n) :
    get_product catalog pid = .ok (catalog.find? (fun p => p.id == n)) := by
  cases catalog with
  | nil => rfl
  | cons a t => simp [get_product, h]

lemma dictGetD_dictSet (c : Cart) (k : String) (v : Int) :
    dictGetD (dictSet c k v) k = v := by
  induction c with
  | nil => simp [dictSet, dictGetD]
  | cons e t ih =>
    by_cases h : e.1 = k
    · simp [dictSet, h, dictGetD]
    · have hb : (e.1 == k) = false := by simpa using h
      simp [dictSet, h, dictGetD, List.find?, hb] at ih ⊢
      exact ih

lemma dictSet_of_not_mem (c : Cart) (k : String) (v : Int)
    (h : ∀ a ∈ c, a.1 ≠ k) : dictSet c k v = c ++ [(k, v)] := by
  induction c with
  | nil => rfl
  | cons e t ih =>
    have he : e.1 ≠ k := h e (by simp)
    simp [dictSet, he]
    exact ih (fun a ha => h a (by simp [ha]))

/-- Closed form of the cart left in the session by a checkout POST: it
depends only on the entry guard, the derivation, the validation and the
insert outcome — never on the notification or Stripe outcome. -/
lemma checkoutPost_cart_closed (env : Env) (form : Form) (cart : Cart) (db : List Order) :
    (checkoutPost env form cart db).cart =
      (if cart = [] then cart else
        match checkoutDerive env.catalog cart with
        | .error _ => cart
        | .ok _ =>
          if pyFalsy form.name || pyFalsy form.phone then cart
          else
            match env.dbFail with
            | some _ => cart
            | none => ([] : Cart)) := by
  unfold checkoutPost
  split
  · rfl
  · split
    · simp_all
    · split
      · simp_all
      · split
        · simp_all
        · split
          · split <;> simp_all
          · simp_all

/-- Either a checkout POST leaves the cart and the database exactly as
they were, or it appends exactly one unpaid order with the next id and
empties the cart. -/
lemma checkoutPost_cases (env : Env) (form : Form) (cart : Cart) (db : List Order) :
    ((checkoutPost env form cart db).db = db ∧ (checkoutPost env form cart db).cart = cart) ∨
    (∃ o : Order, (checkoutPost env form cart db).db = db ++ [o] ∧
      (checkoutPost env form cart db).cart = [] ∧ o.id = db.length + 1 ∧ o.paid = false) := by
  unfold checkoutPost
  split
  · exact Or.inl ⟨rfl, rfl⟩
  · split
    · exact Or.inl ⟨rfl, rfl⟩
    · split
      · exact Or.inl ⟨rfl, rfl⟩
      · split
        · exact Or.inl ⟨rfl, rfl⟩
        · split
          · split
            · exact Or.inr ⟨_, rfl, rfl, rfl, rfl⟩
            · exact Or.inr ⟨_, rfl, rfl, rfl, rfl⟩
          · exact Or.inr ⟨_, rfl, rfl, rfl, rfl⟩

lemma derive_cartRS : checkoutDerive catalog2 cartRS = .ok (itemsRS, 45) := by
  have h1 : get_product catalog2 sOne = .ok (some prodR) := by decide
  have h2 : get_product catalog2 sTwo = .ok (some prodS) := by decide
  simp [checkoutDerive, cartRS, h1, h2, itemsRS, prodR, prodS]
  norm_num

/-! Part: claim theorems -/

/-- C1: in every checkout POST run the session cart is cleared if and
only if the order insert succeeded: every run either leaves both the
database and the cart untouched, or appends exactly one order and
empties the cart; and the resulting cart is the same for every
notification outcome and every Stripe outcome, since the cart is popped
before those steps can influence anything. -/
theorem checkout_cart_cleared_iff_order_persisted
    (env : Env) (form : Form) (cart : Cart) (db : List Order) :
    (((checkoutPost env form cart db).db = db ∧ (checkoutPost env form cart db).cart = cart) ∨
      (∃ o : Order, (checkoutPost env form cart db).db = db ++ [o] ∧
        (checkoutPost env form cart db).cart = [])) ∧
    (∀ (r : Except String String) (b : Bool),
      (checkoutPost (Env.mk env.catalog env.stripeSecret env.dbFail r b) form cart db).cart =
        (checkoutPost env form cart db).cart) := by
  constructor
  · rcases checkoutPost_cases env form cart db with h | ⟨o, h1, h2, _, _⟩
    · exact Or.inl h
    · exact Or.inr ⟨o, h1, h2⟩
  · intro r b
    rw [checkoutPost_cart_closed, checkoutPost_cart_closed]

/-- C2: when the sqlite insert raises during checkout submission, no
order is recorded (database unchanged), the cart is left exactly as it
was, and the visitor is redirected back to `/checkout` with a flash
message that is the string `Database error: ` followed by the underlying
storage error text. -/
theorem checkout_storage_error_recovers
    (env : Env) (form : Form) (cart : Cart) (db : List Order) (e : String)
    (items : List LineItem) (total : ℚ)
    (hc : cart ≠ []) (hd : checkoutDerive env.catalog cart = .ok (items, total))
    (hn : pyFalsy form.name = false) (hp : pyFalsy form.phone = false)
    (hf : env.dbFail = some e) :
    checkoutPost env form cart db =
      CheckoutOut.mk (.redirectCheckout (msgDbPre ++ e)) cart db none := by
  unfold checkoutPost
  simp [hc, hd, hn, hp, hf]

/-- C2 witness: a concrete run whose insert fails with a disk error. -/
theorem checkout_storage_error_recovers_witness :
    checkoutPost envDbFail formOK cartRS [] =
      CheckoutOut.mk (.redirectCheckout (msgDbPre ++ sDisk)) cartRS [] none :=
  checkout_storage_error_recovers envDbFail formOK cartRS [] sDisk itemsRS 45
    (by decide) derive_cartRS rfl rfl rfl

lemma toLineItemsSpec_subtotal (catalog : Catalog) (cart : Cart) :
    ∀ it ∈ toLineItemsSpec catalog cart, it.subtotal = it.price * (it.qty : ℚ) := by
  intro it hit
  simp only [toLineItemsSpec, List.mem_filterMap, Option.bind_eq_some,
    Option.map_eq_some'] at hit
  obtain ⟨e, _, n, _, p, _, hpe⟩ := hit
  rw [← hpe]

lemma cartView_eq_spec (catalog : Catalog) (cart : Cart)
    (h : ∀ e ∈ cart, (pyInt? e.1).isSome) :
    cartView catalog cart =
      .ok (toLineItemsSpec catalog cart,
        ((toLineItemsSpec catalog cart).map (fun it => it.subtotal)).sum) := by
  induction cart with
  | nil => simp [cartView, toLineItemsSpec]
  | cons e rest ih =>
    obtain ⟨pid, qty⟩ := e
    obtain ⟨n, hn⟩ := Option.isSome_iff_exists.mp (h (pid, qty) (by simp))
    have hrest := ih (fun e he => h e (by simp [he]))
    unfold cartView
    rw [get_product_of_parse catalog pid n hn]
    cases hf : catalog.find? (fun p => p.id == n) with
    | none =>
      simpa [toLineItemsSpec, hn, hf] using hrest
    | some p =>
      rw [hrest]
      simp [toLineItemsSpec, hn, hf]

/-- C3 (amended: restricted to carts whose keys all parse as integers;
see the counterexample for the failing unrestricted case): deriving the
cart view joins each entry against the catalog by product id, silently
drops entries whose product id resolves to no product, gives every kept
item `subtotal = price * qty`, and returns as total the sum of the kept
subtotals. -/
theorem cart_derivation_join_total (catalog : Catalog) (cart : Cart)
    (h : ∀ e ∈ cart, (pyInt? e.1).isSome) :
    cartView catalog cart =
      .ok (toLineItemsSpec catalog cart,
        ((toLineItemsSpec catalog cart).map (fun it => it.subtotal)).sum) ∧
    ∀ it ∈ toLineItemsSpec catalog cart, it.subtotal = it.price * (it.qty : ℚ) :=
  ⟨cartView_eq_spec catalog cart h, toLineItemsSpec_subtotal catalog cart⟩

/-- C3 witness: a concrete cart holding a resolvable entry and an
unresolvable (but integer) entry. -/
theorem cart_derivation_join_total_witness :
    cartView catalog2 [(sOne, 2), (sNine3, 1)] =
      .ok (toLineItemsSpec catalog2 [(sOne, 2), (sNine3, 1)],
        ((toLineItemsSpec catalog2 [(sOne, 2), (sNine3, 1)]).map (fun it => it.subtotal)).sum) ∧
    ∀ it ∈ toLineItemsSpec catalog2 [(sOne, 2), (sNine3, 1)],
      it.subtotal = it.price * (it.qty : ℚ) :=
  cart_derivation_join_total catalog2 [(sOne, 2), (sNine3, 1)] (by decide)

/-- C3 counterexample: for the cart whose only key is the string `abc`,
the derivation against a non-empty catalog raises `ValueError` instead of
silently dropping the unresolvable entry and returning a total, so the
claim is false for this cart. -/
theorem cart_derivation_raises_on_nonint_key :
    cartView catalog2 [(sAbc, 1)] = .error msgValueError := by decide

/-- C4 (amended: the flash message is the fixed string
`Please enter name and phone` and does not name the specific missing
field; see the counterexample): submitting checkout with a missing or
empty name or phone creates no order, leaves the cart unchanged, and
redirects back to the checkout review with that fixed validation
message. -/
theorem checkout_validation_fixed_message
    (env : Env) (form : Form) (cart : Cart) (db : List Order)
    (items : List LineItem) (total : ℚ)
    (hc : cart ≠ []) (hd : checkoutDerive env.catalog cart = .ok (items, total))
    (hv : (pyFalsy form.name || pyFalsy form.phone) = true) :
    checkoutPost env form cart db =
      CheckoutOut.mk (.redirectCheckout msgValidation) cart db none := by
  unfold checkoutPost
  simp [hc, hd, hv]

/-- C4 witness: an empty phone with a non-empty name. -/
theorem checkout_validation_fixed_message_witness :
    checkoutPost envPlain formNoPhone cartRS [] =
      CheckoutOut.mk (.redirectCheckout msgValidation) cartRS [] none :=
  checkout_validation_fixed_message envPlain formNoPhone cartRS [] itemsRS 45
    (by decide) derive_cartRS (by decide)

/-- C4 counterexample: the run missing only the phone and the run
missing only the name produce the identical flash message, so the
validation error does not identify which specific field is missing. -/
theorem validation_message_not_specific :
    (checkoutPost envPlain formNoPhone cartRS []).resp = .redirectCheckout msgValidation ∧
    (checkoutPost envPlain formNoName cartRS []).resp = .redirectCheckout msgValidation ∧
    respFlash (checkoutPost envPlain formNoPhone cartRS []).resp =
      respFlash (checkoutPost envPlain formNoName cartRS []).resp := by
  decide

lemma zip_map_self {α β : Type} (f : α → β) (l : List α) :
    (l.map f).zip l = l.map (fun a => (f a, a)) := by
  induction l with
  | nil => rfl
  | cons a t ih => simp [ih]

lemma pyTrunc_den_one (q : ℚ) (h : q.den = 1) : (pyTrunc q : ℚ) = q := by
  unfold pyTrunc
  rw [h]
  push_cast
  rw [Int.tdiv_one]
  conv_rhs => rw [← Rat.num_div_den q]
  rw [h]
  push_cast
  rw [div_one]

lemma derive_cartRT : checkoutDerive catalog3 cartRT = .ok (itemsRT, 239 / 2) := by
  have h1 : get_product catalog3 sOne = .ok (some prodR) := rfl
  have h2 : get_product catalog3 sThree = .ok (some prodT) := rfl
  simp [checkoutDerive, cartRT, h1, h2, itemsRT, prodR, prodT]
  norm_num

lemma checkoutPost_db_success
    (env : Env) (form : Form) (cart : Cart) (db : List Order)
    (items : List LineItem) (total : ℚ)
    (hc : cart ≠ []) (hd : checkoutDerive env.catalog cart = .ok (items, total))
    (hn : pyFalsy form.name = false) (hp : pyFalsy form.phone = false)
    (hdb : env.dbFail = none) :
    (checkoutPost env form cart db).db =
      db ++ [Order.mk (db.length + 1) form.name form.email form.phone form.address
        form.delivery_type items total false] := by
  unfold checkoutPost
  simp only [hd, hn, hp, hdb, if_neg hc, Bool.or_self, Bool.false_eq_true, if_false]
  split
  · cases env.stripeResponse <;> rfl
  · rfl

/-- C5 (amended: the error response redirects back to checkout and does
not carry the order id; see the counterexample): when the Stripe call
fails after the order insert succeeded, the order stays in the database
exactly as persisted, with `paid = false`, the cart stays cleared, and
the visitor is redirected back to `/checkout` with a flash message
carrying the provider error. -/
theorem payment_failure_order_kept
    (env : Env) (form : Form) (cart : Cart) (db : List Order) (e : String)
    (items : List LineItem) (total : ℚ)
    (hc : cart ≠ []) (hd : checkoutDerive env.catalog cart = .ok (items, total))
    (hn : pyFalsy form.name = false) (hp : pyFalsy form.phone = false)
    (hdb : env.dbFail = none)
    (hpay : form.pay_method = some strStripe) (hsec : env.stripeSecret ≠ "")
    (hresp : env.stripeResponse = .error e) :
    checkoutPost env form cart db =
      CheckoutOut.mk (.redirectCheckout (msgPayPre ++ e)) []
        (db ++ [Order.mk (db.length + 1) form.name form.email form.phone form.address
          form.delivery_type items total false])
        (some (mkStripeRequest items (db.length + 1))) := by
  unfold checkoutPost
  simp [hc, hd, hn, hp, hdb, hpay, hsec, hresp]

/-- C5 witness: a concrete run with a failing Stripe call. -/
theorem payment_failure_order_kept_witness :
    checkoutPost envStripeFail formStripe cartRS [] =
      CheckoutOut.mk (.redirectCheckout (msgPayPre ++ sBoom)) []
        [Order.mk 1 (some sA) none (some sPhoneNum) none none itemsRS 45 false]
        (some (mkStripeRequest itemsRS 1)) :=
  payment_failure_order_kept envStripeFail formStripe cartRS [] sBoom itemsRS 45
    (by decide) derive_cartRS rfl rfl rfl rfl (by decide) rfl

/-- C5 counterexample: in that same concrete run the response is the
checkout redirect, and neither its target nor its flash message contains
the created order id `1` anywhere, refuting the part of the claim that
says the response still references the already-created order id. -/
theorem payment_failure_resp_lacks_order_id :
    (checkoutPost envStripeFail formStripe cartRS []).resp =
      .redirectCheckout (msgPayPre ++ sBoom) ∧
    respMentionsOrder (checkoutPost envStripeFail formStripe cartRS []).resp 1 = false := by
  decide

/-- C6: when the form requests stripe payment and a Stripe secret is
configured, the session request built after the insert has exactly one
provider line per derived line item, pointwise carrying the fixed
currency `inr`, the product name, the quantity, and `int(price * 100)`
as unit amount in minor units (equal to `price * 100` whenever that is an
integer); the request uses mode `payment` with the `card` method, a
success URL carrying the new order id and a cancel URL pointing back to
`/checkout`. -/
theorem stripe_request_shape
    (env : Env) (form : Form) (cart : Cart) (db : List Order)
    (items : List LineItem) (total : ℚ)
    (hc : cart ≠ []) (hd : checkoutDerive env.catalog cart = .ok (items, total))
    (hn : pyFalsy form.name = false) (hp : pyFalsy form.phone = false)
    (hdb : env.dbFail = none)
    (hpay : form.pay_method = some strStripe) (hsec : env.stripeSecret ≠ "") :
    ∃ req : StripeRequest,
      (checkoutPost env form cart db).stripeReq = some req ∧
      req.mode = strPayment ∧
      req.payment_method_types = [strCard] ∧
      req.success_url = urlSuccessQ ++ toString (db.length + 1) ∧
      req.cancel_url = urlCheckout ∧
      req.line_items.length = items.length ∧
      ∀ pr ∈ req.line_items.zip items,
        pr.1.currency = strInr ∧
        pr.1.productName = pr.2.name ∧
        pr.1.quantity = pr.2.qty ∧
        pr.1.unit_amount = pyTrunc (pr.2.price * 100) ∧
        ((pr.2.price * 100).den = 1 → (pr.1.unit_amount : ℚ) = pr.2.price * 100) := by
  refine ⟨mkStripeRequest items (db.length + 1), ?_, rfl, rfl, rfl, rfl,
    by simp [mkStripeRequest], ?_⟩
  · unfold checkoutPost
    simp [hc, hd, hn, hp, hdb, hpay, hsec]
    cases env.stripeResponse <;> rfl
  · intro pr hpr
    have hz : (mkStripeRequest items (db.length + 1)).line_items.zip items =
        items.map (fun a => (mkStripeLine a, a)) := zip_map_self mkStripeLine items
    rw [hz, List.mem_map] at hpr
    obtain ⟨it, _, hit⟩ := hpr
    rw [← hit]
    exact ⟨rfl, rfl, rfl, rfl, fun hden => pyTrunc_den_one _ hden⟩

/-- C6 witness: a concrete run over a catalog holding a product priced
`99.5`, whose provider line carries `9950` minor units. -/
theorem stripe_request_shape_witness :
    ∃ req : StripeRequest,
      (checkoutPost envStripeOk formStripe cartRT []).stripeReq = some req ∧
      req.mode = strPayment ∧
      req.payment_method_types = [strCard] ∧
      req.success_url = urlSuccessQ ++ toString (1 : Nat) ∧
      req.cancel_url = urlCheckout ∧
      req.line_items.length = itemsRT.length ∧
      ∀ pr ∈ req.line_items.zip itemsRT,
        pr.1.currency = strInr ∧
        pr.1.productName = pr.2.name ∧
        pr.1.quantity = pr.2.qty ∧
        pr.1.unit_amount = pyTrunc (pr.2.price * 100) ∧
        ((pr.2.price * 100).den = 1 → (pr.1.unit_amount : ℚ) = pr.2.price * 100) :=
  stripe_request_shape envStripeOk formStripe cartRT [] itemsRT (239 / 2)
    (by decide) derive_cartRT rfl rfl rfl rfl (by decide)

/-- C7: an order's stored snapshot is frozen at creation: after a
successful checkout persists order `N` with the items and total derived
at checkout time, changing any product's price in the catalog and
running any further checkout against the changed catalog leaves
re-reading order `N` from the admin listing returning exactly the
original snapshot and total. -/
theorem order_snapshot_frozen
    (env : Env) (form : Form) (cart : Cart) (db : List Order)
    (items : List LineItem) (total : ℚ)
    (hc : cart ≠ []) (hd : checkoutDerive env.catalog cart = .ok (items, total))
    (hn : pyFalsy form.name = false) (hp : pyFalsy form.phone = false)
    (hdb : env.dbFail = none)
    (pid : Int) (newp : ℚ) (sec2 : String) (dbf2 : Option String)
    (resp2 : Except String String) (em2 : Bool) (form2 : Form) (cart2 : Cart) :
    readOrder (checkoutPost (Env.mk (setPrice env.catalog pid newp) sec2 dbf2 resp2 em2)
        form2 cart2 (checkoutPost env form cart db).db).db (db.length + 1) =
      some (Order.mk (db.length + 1) form.name form.email form.phone form.address
        form.delivery_type items total false) := by
  have h1 := checkoutPost_db_success env form cart db items total hc hd hn hp hdb
  rw [h1]
  rcases checkoutPost_cases (Env.mk (setPrice env.catalog pid newp) sec2 dbf2 resp2 em2)
      form2 cart2 (db ++ [Order.mk (db.length + 1) form.name form.email form.phone
        form.address form.delivery_type items total false]) with
    ⟨h2, _⟩ | ⟨o2, h2, _, hid2, _⟩
  · rw [h2]
    simp [readOrder, listAll]
  · rw [h2]
    have hne : (o2.id == db.length + 1) = false := by
      rw [hid2]
      simp
    simp [readOrder, listAll, hne]

/-- C7 witness: order 1 is created from `cartRS` at price 10 for product
1; the price then changes to 99 and a second checkout runs; re-reading
order 1 still yields the original snapshot and total 45. -/
theorem order_snapshot_frozen_witness :
    readOrder (checkoutPost (Env.mk (setPrice catalog2 1 99) sEmpty none (.ok sUrl) true)
        formOK [(sTwo, 5)] (checkoutPost envPlain formOK cartRS []).db).db 1 =
      some (Order.mk 1 (some sA) none (some sPhoneNum) none none itemsRS 45 false) :=
  order_snapshot_frozen envPlain formOK cartRS [] itemsRS 45
    (by decide) derive_cartRS rfl rfl rfl 1 99 sEmpty none (.ok sUrl) true formOK [(sTwo, 5)]

lemma startsSub_decomp (p s : List Char) (h : startsSub p s = true) :
    ∃ t, s = p ++ t := by
  induction p generalizing s with
  | nil => exact ⟨s, rfl⟩
  | cons a p ih =>
    cases s with
    | nil => simp [startsSub] at h
    | cons b s =>
      simp only [startsSub, Bool.and_eq_true, decide_eq_true_eq] at h
      obtain ⟨rfl, h2⟩ := h
      obtain ⟨t, rfl⟩ := ih s h2
      exact ⟨t, rfl⟩

lemma startsQty_decomp (k : String) (h : startsQty k = true) :
    ∃ t, k.data = strQtyDash.data ++ t ∧ afterFirstDash k.data = t ∧ k.data.drop 4 = t := by
  obtain ⟨t, ht⟩ := startsSub_decomp strQtyDash.data k.data h
  refine ⟨t, ht, ?_, ?_⟩
  · rw [ht]
    rfl
  · rw [ht]
    rfl

lemma pidOfKey_eq_drop (k : String) (h : startsQty k = true) :
    pidOfKey k = String.mk (k.data.drop 4) := by
  obtain ⟨t, _, h2, h3⟩ := startsQty_decomp k h
  unfold pidOfKey
  rw [h2, h3]

lemma pidOfKey_inj_on_qty (k1 k2 : String)
    (h1 : startsQty k1 = true) (h2 : startsQty k2 = true)
    (h : pidOfKey k1 = pidOfKey k2) : k1 = k2 := by
  obtain ⟨t1, e1, a1, _⟩ := startsQty_decomp k1 h1
  obtain ⟨t2, e2, a2, _⟩ := startsQty_decomp k2 h2
  unfold pidOfKey at h
  rw [a1, a2] at h
  injection h with ht
  have hd : k1.data = k2.data := by rw [e1, e2, ht]
  exact congrArg String.mk hd

lemma updateCartLoop_eq_spec (form : List (String × String)) (acc : Cart)
    (hnd : (form.map (fun e => e.1)).Nodup)
    (hdisj : ∀ e ∈ form, startsQty e.1 = true → ∀ a ∈ acc, a.1 ≠ pidOfKey e.1) :
    updateCartLoop acc form = acc ++ setQuantitiesSpec form := by
  induction form generalizing acc with
  | nil => simp [updateCartLoop, setQuantitiesSpec]
  | cons e rest ih =>
    obtain ⟨k, v⟩ := e
    simp only [List.map_cons, List.nodup_cons] at hnd
    obtain ⟨hk, hnd'⟩ := hnd
    by_cases hq : startsQty k = true
    · by_cases hpos : (pyInt? v).getD 0 > 0
      · have hset : dictSet acc (pidOfKey k) ((pyInt? v).getD 0) =
            acc ++ [(pidOfKey k, (pyInt? v).getD 0)] :=
          dictSet_of_not_mem _ _ _ (fun a ha => hdisj (k, v) (by simp) hq a ha)
        have hdisj' : ∀ e ∈ rest, startsQty e.1 = true →
            ∀ a ∈ acc ++ [(pidOfKey k, (pyInt? v).getD 0)], a.1 ≠ pidOfKey e.1 := by
          intro e he hqe a ha
          rcases List.mem_append.mp ha with ha | ha
          · exact hdisj e (by simp [he]) hqe a ha
          · simp only [List.mem_singleton] at ha
            subst ha
            intro hcontra
            have : k = e.1 := pidOfKey_inj_on_qty k e.1 hq hqe hcontra
            exact hk (this ▸ List.mem_map.mpr ⟨e, he, rfl⟩)
        calc updateCartLoop acc ((k, v) :: rest)
            = updateCartLoop (acc ++ [(pidOfKey k, (pyInt? v).getD 0)]) rest := by
              simp only [updateCartLoop, hq, if_true, hpos, if_pos, hset]
          _ = acc ++ [(pidOfKey k, (pyInt? v).getD 0)] ++ setQuantitiesSpec rest :=
              ih _ hnd' hdisj'
          _ = acc ++ setQuantitiesSpec ((k, v) :: rest) := by
              rw [pidOfKey_eq_drop k hq]
              simp [setQuantitiesSpec, hq, hpos]
      · have hstep : updateCartLoop acc ((k, v) :: rest) = updateCartLoop acc rest := by
          simp only [updateCartLoop, hq, if_true, hpos, if_neg, if_false]
        rw [hstep, ih acc hnd' (fun e he => hdisj e (by simp [he]))]
        have : setQuantitiesSpec ((k, v) :: rest) = setQuantitiesSpec rest := by
          simp [setQuantitiesSpec, hq, hpos]
        rw [this]
    · have hstep : updateCartLoop acc ((k, v) :: rest) = updateCartLoop acc rest := by
        simp only [updateCartLoop, hq, if_false]
        rw [if_neg]
        simp [hq]
      rw [hstep, ih acc hnd' (fun e he => hdisj e (by simp [he]))]
      have : setQuantitiesSpec ((k, v) :: rest) = setQuantitiesSpec rest := by
        simp [setQuantitiesSpec, hq]
      rw [this]

/-- C8: cart mutation semantics.  Adding a resolvable product id sets
its quantity to one more than the stored quantity (default 0), so two
sequential adds give quantity 2; adding an unresolvable id leaves the
cart unchanged with a not-found flash; and a quantity update replaces
the whole cart by exactly the `qty-` fields whose value parses to a
positive integer, silently dropping non-numeric and non-positive
values. -/
theorem cart_mutation_semantics
    (catalog : Catalog) (cart : Cart) (pid : Int) (form : List (String × String)) :
    (∀ p : Product, catalog.find? (fun q => q.id == pid) = some p →
      (add_to_cart catalog cart pid).1 =
        dictSet cart (toString pid) (dictGetD cart (toString pid) + 1) ∧
      dictGetD (add_to_cart catalog cart pid).1 (toString pid) =
        dictGetD cart (toString pid) + 1 ∧
      dictGetD (add_to_cart catalog (add_to_cart catalog cart pid).1 pid).1 (toString pid) =
        dictGetD cart (toString pid) + 2) ∧
    (catalog.find? (fun q => q.id == pid) = none →
      add_to_cart catalog cart pid = (cart, .redirectIndex msgNotFound)) ∧
    ((form.map (fun e => e.1)).Nodup → update_cart form = setQuantitiesSpec form) := by
  refine ⟨?_, ?_, ?_⟩
  · intro p hp
    have e : ∀ c : Cart, (add_to_cart catalog c pid).1 =
        dictSet c (toString pid) (dictGetD c (toString pid) + 1) := by
      intro c
      unfold add_to_cart
      rw [hp]
    refine ⟨e cart, ?_, ?_⟩
    · rw [e cart, dictGetD_dictSet]
    · rw [e _, dictGetD_dictSet, e cart, dictGetD_dictSet]
      omega
  · intro hnone
    unfold add_to_cart
    rw [hnone]
  · intro hnd
    unfold update_cart
    have h := updateCartLoop_eq_spec form [] hnd (by intro e _ _ a ha; simp at ha)
    simpa using h

/-- C8 witness: two adds of product 1 starting from the empty cart give
quantity 2; adding the unresolvable id 5 changes nothing; and the mixed
quantity form is replaced by exactly its positive numeric `qty-`
entries. -/
theorem cart_mutation_semantics_witness :
    dictGetD (add_to_cart catalog2 (add_to_cart catalog2 [] 1).1 1).1 (toString (1 : Int)) = 2 ∧
    add_to_cart catalog2 [] 5 = ([], .redirectIndex msgNotFound) ∧
    update_cart formW8 = setQuantitiesSpec formW8 := by
  refine ⟨?_, ?_, ?_⟩
  · have h := (cart_mutation_semantics catalog2 [] 1 formW8).1 prodR (by decide)
    rw [h.2.2]
    decide
  · exact (cart_mutation_semantics catalog2 [] 5 formW8).2.1 (by decide)
  · exact (cart_mutation_semantics catalog2 [] 1 formW8).2.2 (by decide)

lemma checkoutDerive_all_none (catalog : Catalog) (cart : Cart)
    (hall : ∀ e ∈ cart, get_product catalog e.1 = .ok none) :
    checkoutDerive catalog cart = .ok ([], 0) := by
  induction cart with
  | nil => rfl
  | cons e rest ih =>
    obtain ⟨pid, qty⟩ := e
    unfold checkoutDerive
    rw [hall (pid, qty) (by simp)]
    exact ih (fun e he => hall e (by simp [he]))

/-- C9 (amended: restricted to a non-empty catalog; with an empty
catalog `int(pid)` is never reached inside the lookup loop and nothing
raises — see the counterexample): a `qty-abc` form field stores the
non-integer key `abc` in the cart, after which `get_product` raises
`ValueError` on that key and both the cart view derivation and the
checkout POST die with the uncaught exception instead of silently
dropping the entry, leaving cart and database untouched. -/
theorem nonint_key_poisons_cart (catalog : Catalog) (hcat : catalog ≠ []) :
    update_cart [(sQtyAbc, sTwo)] = [(sAbc, 2)] ∧
    get_product catalog sAbc = .error msgValueError ∧
    cartView catalog [(sAbc, 2)] = .error msgValueError ∧
    ∀ (sec : String) (dbf : Option String) (resp : Except String String) (em : Bool)
      (form : Form) (db : List Order),
      checkoutPost (Env.mk catalog sec dbf resp em) form [(sAbc, 2)] db =
        CheckoutOut.mk (.exn msgValueError) [(sAbc, 2)] db none := by
  have hgp : get_product catalog sAbc = .error msgValueError := by
    cases catalog with
    | nil => exact absurd rfl hcat
    | cons p t =>
      unfold get_product
      have hpi : pyInt? sAbc = none := by decide
      rw [hpi]
  have hcv : cartView catalog [(sAbc, 2)] = .error msgValueError := by
    unfold cartView
    rw [hgp]
  have hcd : checkoutDerive catalog [(sAbc, 2)] = .error msgValueError := by
    unfold checkoutDerive
    rw [hgp]
  refine ⟨by decide, hgp, hcv, ?_⟩
  intro sec dbf resp em form db
  have hne : ([(sAbc, 2)] : Cart) ≠ [] := by decide
  unfold checkoutPost
  simp [hne, hcd]

/-- C9 witness: the poisoning run against the concrete two-product
catalog. -/
theorem nonint_key_poisons_cart_witness :
    cartView catalog2 [(sAbc, 2)] = .error msgValueError ∧
    checkoutPost (Env.mk catalog2 sEmpty none (.ok sUrl) true) formOK [(sAbc, 2)] [] =
      CheckoutOut.mk (.exn msgValueError) [(sAbc, 2)] [] none :=
  ⟨(nonint_key_poisons_cart catalog2 (by decide)).2.2.1,
   (nonint_key_poisons_cart catalog2 (by decide)).2.2.2 sEmpty none (.ok sUrl) true formOK []⟩

/-- C9 counterexample: with an empty catalog, `get_product` on the
non-integer key `abc` returns no-product without raising — the `int(pid)`
conversion sits inside the loop over the catalog — and the cart
derivation silently drops the entry, so the claim that lookup raises on
any non-integer string (and that every later derivation raises) is
false. -/
theorem nonint_key_empty_catalog_no_raise :
    get_product ([] : Catalog) sAbc = .ok none ∧
    cartView ([] : Catalog) [(sAbc, 2)] = .ok ([], 0) :=
  ⟨rfl, rfl⟩

/-- C10: a non-empty cart none of whose keys resolves to a product
passes the empty-cart guard, and a valid submission persists an order
with an empty items snapshot, total 0 and `paid = false`, and clears the
cart. -/
theorem unresolvable_cart_creates_empty_order
    (env : Env) (form : Form) (cart : Cart) (db : List Order)
    (hc : cart ≠ [])
    (hall : ∀ e ∈ cart, get_product env.catalog e.1 = .ok none)
    (hn : pyFalsy form.name = false) (hp : pyFalsy form.phone = false)
    (hdb : env.dbFail = none) :
    (checkoutPost env form cart db).db =
      db ++ [Order.mk (db.length + 1) form.name form.email form.phone form.address
        form.delivery_type [] 0 false] ∧
    (checkoutPost env form cart db).cart = [] := by
  have hd := checkoutDerive_all_none env.catalog cart hall
  refine ⟨checkoutPost_db_success env form cart db [] 0 hc hd hn hp hdb, ?_⟩
  rw [checkoutPost_cart_closed]
  simp [hc, hd, hn, hp, hdb]

/-- C10 witness: the cart whose only key is `999`, unresolvable in the
two-product catalog. -/
theorem unresolvable_cart_creates_empty_order_witness :
    (checkoutPost envPlain formOK [(sNine3, 2)] []).db =
      [Order.mk 1 (some sA) none (some sPhoneNum) none none [] 0 false] ∧
    (checkoutPost envPlain formOK [(sNine3, 2)] []).cart = [] :=
  unresolvable_cart_creates_empty_order envPlain formOK [(sNine3, 2)] []
    (by decide) (by decide) rfl rfl rfl

end CrackerShop
